import Mathlib

/-!
Verification of the agent-browser session daemon (src/daemon.ts).

The daemon is embedded shallowly: pure helpers (the session-port hash, the
line framer) become Lean functions; the stateful connection handler, the
shutdown handlers and the startup sequence become explicit state-passing
functions that also emit a trace of externally visible effects (driver
calls, socket writes, file operations, process exit).  External
collaborators (the command codec `parseCommand`, the driver
`executeCommand`, the browser launch) are oracles passed in as parameters.
-/

namespace AgentBrowser

/-! ## Address resolver: the TCP-port hash (daemon.ts, getPortForSession) -/

/-- Wrap an integer to the 32-bit signed range, as JavaScript bitwise
operators do (`hash |= 0`). -/
def wrap32 (n : Int) : Int := (n + 2 ^ 31) % 2 ^ 32 - 2 ^ 31

/-- One step of the session hash loop:
`hash = (hash << 5) - hash + session.charCodeAt(i); hash |= 0;`.
`hash << 5` on an int32 is `wrap32 (h * 32)`; the subtraction and addition
are exact in doubles at these magnitudes, and the final `|= 0` wraps. -/
def hashStep (h : Int) (c : Nat) : Int := wrap32 (wrap32 (h * 32) - h + c)

/-- The session hash: fold `hashStep` over the UTF-16 code units of the
session name, starting from 0 (daemon.ts lines 41-45). -/
def sessionHash (codes : List Nat) : Int := codes.foldl hashStep 0

/-- `getPortForSession` (daemon.ts line 47):
`49152 + (Math.abs(hash) % 16383)`. -/
def getPortForSession (codes : List Nat) : Nat :=
  49152 + (sessionHash codes).natAbs % 16383

theorem wrap32_sub_dvd (a b : Int) (h : (2 ^ 32 : Int) ∣ a - b) :
    wrap32 a = wrap32 b := by
  unfold wrap32
  omega

theorem hashStep_eq_spec (h : Int) (c : Nat) :
    hashStep h c = wrap32 (h * 31 + c) := by
  unfold hashStep
  apply wrap32_sub_dvd
  have hd : (2 ^ 32 : Int) ∣ wrap32 (h * 32) - h * 32 := by
    unfold wrap32; omega
  omega

theorem foldl_hashStep_eq (codes : List Nat) :
    ∀ h : Int, codes.foldl hashStep h =
      codes.foldl (fun h c => wrap32 (h * 31 + c)) h := by
  induction codes with
  | nil => intro _; rfl
  | cons c rest ih =>
    intro h
    simp only [List.foldl_cons, hashStep_eq_spec]
    exact ih _

theorem sessionHash_eq_spec (codes : List Nat) :
    sessionHash codes =
      codes.foldl (fun h c => wrap32 (h * 31 + c)) 0 :=
  foldl_hashStep_eq codes 0

/-! ## Connection framer (daemon.ts lines 167-178) -/

/-- Extract every complete newline-terminated line from a buffer, returning
the list of lines (without their terminators) and the remaining partial
line.  This is the `while (buffer.includes(newline))` loop of the data
handler: repeatedly take the prefix up to the first newline as one message
and keep the rest. -/
def extractLines : List Char → List (List Char) × List Char
  | [] => ([], [])
  | c :: rest =>
    if c = '\n' then
      ([] :: (extractLines rest).1, (extractLines rest).2)
    else
      match extractLines rest with
      | (m :: ms, rem) => ((c :: m) :: ms, rem)
      | ([], rem) => ([], c :: rem)

/-- One `data` event: append the chunk to the connection buffer and extract
all complete lines (`buffer += data.toString()` followed by the framing
loop). -/
def feed (buf data : List Char) : List (List Char) × List Char :=
  extractLines (buf ++ data)

/-- Feed a sequence of already-decoded text chunks through the framer,
starting from an empty buffer, accumulating all framed messages and
threading the partial remainder from one feed to the next. -/
def feedChunks (chunks : List (List Char)) : List (List Char) × List Char :=
  chunks.foldl (fun acc d => ((acc.1 ++ (feed acc.2 d).1), (feed acc.2 d).2))
    ([], [])

/-! ### The byte level: `data.toString()`

The socket hands the data handler a byte buffer, and the handler's first
step is `buffer += data.toString()` (daemon.ts line 170): each chunk is
UTF-8 decoded on its own, with no decoder state carried between chunks, so
a multi-byte sequence cut at a chunk boundary turns into replacement
characters (U+FFFD).  The decoder below follows the WHATWG UTF-8 decode
algorithm that Node implements: a state of pending continuation count,
accumulated code point and the admissible range for the next continuation
byte; an invalid byte emits one replacement for the maximal subpart and is
reprocessed from the ground state; a truncated sequence at the end of the
chunk flushes as one replacement. -/

/-- The replacement character U+FFFD. -/
def uRepl : Char := Char.ofNat 0xFFFD

/-- UTF-8 decoder state: how many continuation bytes are still expected,
the accumulated code point bits, and the inclusive bounds the next
continuation byte must satisfy. -/
structure Utf8State where
  need : Nat
  acc : Nat
  lo : Nat
  hi : Nat
deriving DecidableEq

/-- The ground state: no sequence in progress. -/
def utf8Init : Utf8State := ⟨0, 0, 0x80, 0xBF⟩

/-- Decode one byte from the ground state: ASCII is emitted; C2-DF, E0-EF
and F0-F4 open a 2-, 3- or 4-byte sequence (E0, ED, F0 and F4 restrict
the first continuation byte to exclude overlongs and surrogates); any
other byte is invalid and emits one replacement. -/
def utf8Ground (b : Nat) : List Char × Utf8State :=
  if b ≤ 0x7F then ([Char.ofNat b], utf8Init)
  else if 0xC2 ≤ b ∧ b ≤ 0xDF then ([], ⟨1, b % 32, 0x80, 0xBF⟩)
  else if 0xE0 ≤ b ∧ b ≤ 0xEF then
    ([], ⟨2, b % 16, if b = 0xE0 then 0xA0 else 0x80,
          if b = 0xED then 0x9F else 0xBF⟩)
  else if 0xF0 ≤ b ∧ b ≤ 0xF4 then
    ([], ⟨3, b % 8, if b = 0xF0 then 0x90 else 0x80,
          if b = 0xF4 then 0x8F else 0xBF⟩)
  else ([uRepl], utf8Init)

/-- Decode one byte in an arbitrary state: in the ground state defer to
`utf8Ground`; otherwise an admissible continuation byte extends the code
point (emitting the character when the sequence completes), and anything
else emits one replacement for the broken sequence and reprocesses the
byte from the ground state. -/
def utf8StepS (s : Utf8State) (b : Nat) : List Char × Utf8State :=
  if s.need = 0 then utf8Ground b
  else if s.lo ≤ b ∧ b ≤ s.hi then
    if s.need = 1 then ([Char.ofNat (s.acc * 64 + b % 64)], utf8Init)
    else ([], ⟨s.need - 1, s.acc * 64 + b % 64, 0x80, 0xBF⟩)
  else (uRepl :: (utf8Ground b).1, (utf8Ground b).2)

/-- Run the decoder over a byte list from a given state, returning the
emitted characters and the final state. -/
def utf8RunS : Utf8State → List Nat → List Char × Utf8State
  | s, [] => ([], s)
  | s, b :: rest =>
    ((utf8StepS s b).1 ++ (utf8RunS (utf8StepS s b).2 rest).1,
     (utf8RunS (utf8StepS s b).2 rest).2)

/-- `data.toString()` on one chunk: decode from the ground state and flush
a truncated trailing sequence as one replacement character. -/
def utf8Decode (bytes : List Nat) : List Char :=
  (utf8RunS utf8Init bytes).1 ++
    (if (utf8RunS utf8Init bytes).2.need = 0 then [] else [uRepl])

/-- A byte chunk is complete when decoding it leaves the decoder back in
the ground state — no multi-byte sequence is cut at its end. -/
def utf8Complete (bytes : List Nat) : Prop :=
  (utf8RunS utf8Init bytes).2 = utf8Init

instance (bytes : List Nat) : Decidable (utf8Complete bytes) := by
  unfold utf8Complete; infer_instance

/-- One `data` event at byte granularity (daemon.ts lines 169-178):
`buffer += data.toString()`, then the framing loop. -/
def feedBytes (buf : List Char) (data : List Nat) :
    List (List Char) × List Char :=
  feed buf (utf8Decode data)

/-- Feed a sequence of byte chunks through the handler, each decoded on
its own as `data.toString()` does, threading the text buffer. -/
def feedBytesChunks (chunks : List (List Nat)) :
    List (List Char) × List Char :=
  chunks.foldl
    (fun acc d => ((acc.1 ++ (feedBytes acc.2 d).1), (feedBytes acc.2 d).2))
    ([], [])

theorem extractLines_append (a b : List Char) :
    extractLines (a ++ b) =
      ((extractLines a).1 ++ (extractLines ((extractLines a).2 ++ b)).1,
       (extractLines ((extractLines a).2 ++ b)).2) := by
  induction a with
  | nil => simp [extractLines]
  | cons c a ih =>
    by_cases hc : c = '\n'
    · subst hc
      simp [extractLines, ih]
    · rcases ha : extractLines a with ⟨ms, ra⟩
      cases ms with
      | cons m ms =>
        have hab : extractLines (a ++ b) =
            (m :: (ms ++ (extractLines (ra ++ b)).1),
             (extractLines (ra ++ b)).2) := by
          rw [ih, ha]; simp
        simp [extractLines, if_neg hc, hab, ha]
      | nil =>
        have hab : extractLines (a ++ b) = extractLines (ra ++ b) := by
          rw [ih, ha]; simp
        rcases hb : extractLines (ra ++ b) with ⟨ns, rb⟩
        cases ns with
        | nil => simp [extractLines, if_neg hc, hab, ha, hb]
        | cons n ns => simp [extractLines, if_neg hc, hab, ha, hb]

theorem extractLines_remainder_no_nl (l : List Char) :
    '\n' ∉ (extractLines l).2 := by
  induction l with
  | nil => simp [extractLines]
  | cons c rest ih =>
    by_cases hc : c = '\n'
    · subst hc; simpa [extractLines] using ih
    · rcases h : extractLines rest with ⟨ms, rem⟩
      cases ms with
      | cons m ms =>
        simp only [extractLines, if_neg hc, h]
        simpa [h] using ih
      | nil =>
        simp only [extractLines, if_neg hc, h]
        simp only [List.mem_cons, not_or]
        refine ⟨fun he => hc he.symm, ?_⟩
        simpa [h] using ih

theorem extractLines_of_no_nl (l : List Char) (h : '\n' ∉ l) :
    extractLines l = ([], l) := by
  induction l with
  | nil => rfl
  | cons c rest ih =>
    simp only [List.mem_cons, not_or] at h
    have hc : ¬ c = '\n' := fun he => h.1 he.symm
    simp [extractLines, if_neg hc, ih h.2]

theorem feedChunks_go (chunks : List (List Char)) :
    ∀ (ms : List (List Char)) (buf : List Char), '\n' ∉ buf →
      chunks.foldl
          (fun acc d => ((acc.1 ++ (feed acc.2 d).1), (feed acc.2 d).2))
          (ms, buf) =
        (ms ++ (extractLines (buf ++ chunks.flatten)).1,
         (extractLines (buf ++ chunks.flatten)).2) := by
  induction chunks with
  | nil =>
    intro ms buf hb
    simp [extractLines_of_no_nl buf hb]
  | cons d ds ih =>
    intro ms buf hb
    simp only [List.foldl_cons, List.flatten_cons]
    rw [ih (ms ++ (feed buf d).1) (feed buf d).2
      (extractLines_remainder_no_nl (buf ++ d))]
    have := extractLines_append (buf ++ d) ds.flatten
    simp only [feed]
    rw [show buf ++ (d ++ ds.flatten) = (buf ++ d) ++ ds.flatten by
      simp [List.append_assoc]]
    rw [this]
    simp [List.append_assoc]

theorem utf8RunS_append (a b : List Nat) :
    ∀ s, utf8RunS s (a ++ b) =
      ((utf8RunS s a).1 ++ (utf8RunS (utf8RunS s a).2 b).1,
       (utf8RunS (utf8RunS s a).2 b).2) := by
  induction a with
  | nil => intro s; simp [utf8RunS]
  | cons x a ih => intro s; simp [utf8RunS, ih]

theorem utf8Decode_append (a b : List Nat) (h : utf8Complete a) :
    utf8Decode (a ++ b) = utf8Decode a ++ utf8Decode b := by
  unfold utf8Complete at h
  unfold utf8Decode
  rw [utf8RunS_append a b utf8Init, h]
  simp [utf8Init]

theorem utf8Complete_append (a b : List Nat) (ha : utf8Complete a)
    (hb : utf8Complete b) : utf8Complete (a ++ b) := by
  unfold utf8Complete at *
  rw [utf8RunS_append a b utf8Init, ha]
  exact hb

theorem utf8Decode_flatten (chunks : List (List Nat))
    (h : ∀ c ∈ chunks, utf8Complete c) :
    utf8Decode chunks.flatten = (chunks.map utf8Decode).flatten ∧
    utf8Complete chunks.flatten := by
  induction chunks with
  | nil => exact ⟨rfl, rfl⟩
  | cons c cs ih =>
    have hc : utf8Complete c := h c (List.mem_cons_self c cs)
    have hrest := ih (fun d hd => h d (List.mem_cons_of_mem c hd))
    refine ⟨?_, ?_⟩
    · simp only [List.flatten_cons, List.map_cons]
      rw [utf8Decode_append c cs.flatten hc, hrest.1]
    · simp only [List.flatten_cons]
      exact utf8Complete_append c cs.flatten hc hrest.2

/-! ## Protocol and collaborator interfaces

The codec (`parseCommand`, `serializeResponse`, `errorResponse` in
protocol.ts) and the driver (`executeCommand` in actions.ts) are external
collaborators of the daemon.  A decoded command is abstracted to its
correlation id and action name; the driver and the browser launch are
oracles of type `Cmd → Except String Resp` and `Except String Unit`
(an `Except.error` models a thrown exception whose message is the payload).
-/

/-- A decoded command, reduced to the fields the daemon inspects. -/
structure Cmd where
  id : String
  action : String
deriving DecidableEq

/-- A response as written back to the client (payload kept opaque). -/
structure Resp where
  id : String
  success : Bool
  payload : String
deriving DecidableEq

/-- `errorResponse(id, message)` from protocol.ts: a failure response
tagged with the given correlation id. -/
def errorResponse (id msg : String) : Resp := ⟨id, false, msg⟩

/-- Result of `parseCommand(line)`: either a decoded command, or a failure
carrying whatever correlation id the codec could salvage and an error
message. -/
inductive ParseResult where
  | ok (cmd : Cmd)
  | fail (id : Option String) (error : String)
deriving DecidableEq

/-- Environment variables read by the daemon.  `none` models an unset
variable; JavaScript truthiness makes the empty string behave like unset
where the code tests the variable directly. -/
structure Env where
  extensions : Option String
  headed : Option String
  executablePath : Option String
  codegen : Option String
  codegenOutput : Option String
  codegenCodeOnly : Option String
  codegenCwd : Option String
deriving DecidableEq

/-- The launch options object built by the auto-launch gate
(daemon.ts lines 200-206). -/
structure LaunchConfig where
  id : String
  action : String
  headless : Bool
  executablePath : Option String
  extensions : Option (List String)
deriving DecidableEq

/-- The codegen options object built by the auto-launch gate
(daemon.ts lines 210-214). -/
structure CodegenOpts where
  path : Option String
  codeOnly : Bool
  cwd : Option String
deriving DecidableEq

/-- The extension list of the auto-launch gate (daemon.ts lines 195-199):
`AGENT_BROWSER_EXTENSIONS` split on commas, entries trimmed, empty entries
filtered out; `undefined` when the variable is unset or empty (falsy). -/
def envExtensions (env : Env) : Option (List String) :=
  match env.extensions with
  | some s =>
    if s = "" then none
    else some (((s.splitOn ",").map String.trim).filter (fun e => e ≠ ""))
  | none => none

/-- The full launch configuration of the auto-launch gate: headless unless
`AGENT_BROWSER_HEADED` equals `1`, the executable path straight from the
environment, and `envExtensions`. -/
def autoLaunchConfig (env : Env) : LaunchConfig :=
  { id := "auto"
    action := "launch"
    headless := env.headed != some "1"
    executablePath := env.executablePath
    extensions := envExtensions env }

/-- The codegen options of the auto-launch gate. -/
def autoCodegenOpts (env : Env) : CodegenOpts :=
  { path := env.codegenOutput
    codeOnly := env.codegenCodeOnly == some "1"
    cwd := env.codegenCwd }

/-! ## Daemon state and effect traces -/

/-- The daemon's mutable state: the `shuttingDown` flag, the browser's
launched flag (`browser.isLaunched()`), the codegen recorder's active flag
(`browser.isCodegenActive()`), and the optional stream server (holding its
port when running).  The browser flags model the collaborator contract
from the spec: a successful `launch` marks the resource initialized and
`startCodegen` marks the recorder active. -/
structure DaemonState where
  shuttingDown : Bool
  launched : Bool
  codegenActive : Bool
  streamServer : Option Nat
deriving DecidableEq

/-- Externally visible effects of the daemon, in program order. -/
inductive Effect where
  | write (r : Resp)
  | browserLaunch (cfg : LaunchConfig)
  | startCodegen (opts : CodegenOpts)
  | execute (c : Cmd)
  | serverClose
  | cleanupSocket
  | exitProc (code : Nat)
  | streamStop
  | removeStreamFile
  | browserClose
  | logError
  | createServer
  | writePidFile
  | writePortFile
  | streamStart (port : Nat)
  | writeStreamFile (port : Nat)
  | listen
deriving DecidableEq

/-- The body of the auto-launch gate once `browser.launch` has succeeded
(daemon.ts lines 200-215): mark the browser launched, and start the
codegen recorder when `AGENT_BROWSER_CODEGEN` is `1` and it is not already
active. -/
def gateEffects (env : Env) (st : DaemonState) : DaemonState × List Effect :=
  let st1 := { st with launched := true }
  if env.codegen = some "1" ∧ st1.codegenActive = false then
    ({ st1 with codegenActive := true },
     [Effect.browserLaunch (autoLaunchConfig env),
      Effect.startCodegen (autoCodegenOpts env)])
  else
    (st1, [Effect.browserLaunch (autoLaunchConfig env)])

/-- Executing a decoded command after the gate (daemon.ts lines 218-235):
the close command is executed and answered, and the first close also
schedules the teardown (stop the listener, clear the session artifacts,
exit 0) behind the `shuttingDown` flag; any other command is executed and
answered.  A driver exception is caught and answered with
`errorResponse('error', message)` (lines 236-239). -/
def execPhase (exec : Cmd → Except String Resp) (st : DaemonState)
    (cmd : Cmd) : DaemonState × List Effect :=
  if cmd.action = "close" then
    match exec cmd with
    | Except.error msg =>
      (st, [Effect.execute cmd, Effect.write (errorResponse "error" msg)])
    | Except.ok resp =>
      if st.shuttingDown then
        (st, [Effect.execute cmd, Effect.write resp])
      else
        ({ st with shuttingDown := true },
         [Effect.execute cmd, Effect.write resp, Effect.serverClose,
          Effect.cleanupSocket, Effect.exitProc 0])
  else
    match exec cmd with
    | Except.error msg =>
      (st, [Effect.execute cmd, Effect.write (errorResponse "error" msg)])
    | Except.ok resp => (st, [Effect.execute cmd, Effect.write resp])

/-- Processing of one framed message (daemon.ts lines 180-239): answer a
decode failure with the salvaged id (or the sentinel `unknown`) and carry
on; otherwise run the auto-launch gate when the browser is not launched
and the command is neither `launch` nor `close` (a failed launch is caught
and answered with `errorResponse('error', message)`), then execute the
command. -/
def handleMessage (env : Env) (exec : Cmd → Except String Resp)
    (launchRes : Except String Unit) (st : DaemonState) (p : ParseResult) :
    DaemonState × List Effect :=
  match p with
  | ParseResult.fail id err =>
    (st, [Effect.write (errorResponse (id.getD "unknown") err)])
  | ParseResult.ok cmd =>
    if st.launched = false ∧ cmd.action ≠ "launch" ∧ cmd.action ≠ "close" then
      match launchRes with
      | Except.error msg =>
        (st, [Effect.browserLaunch (autoLaunchConfig env),
              Effect.write (errorResponse "error" msg)])
      | Except.ok _ =>
        let g := gateEffects env st
        let r := execPhase exec g.1 cmd
        (r.1, g.2 ++ r.2)
    else
      execPhase exec st cmd

/-- Process a sequence of framed messages in arrival order (messages from
several connections interleave into one such global order, since the event
loop is single threaded), threading the daemon state and concatenating
the effect traces. -/
def runMsgs (env : Env) (exec : Cmd → Except String Resp)
    (launchRes : Except String Unit) :
    DaemonState → List ParseResult → DaemonState × List Effect
  | st, [] => (st, [])
  | st, p :: ps =>
    let r := handleMessage env exec launchRes st p
    let rest := runMsgs env exec launchRes r.1 ps
    (rest.1, r.2 ++ rest.2)

/-- A line is blank exactly when `line.trim()` is empty, i.e. every
character is whitespace. -/
def lineIsBlank (l : List Char) : Bool := l.all Char.isWhitespace

/-- Processing of one extracted line (daemon.ts line 178 onwards): a blank
line is skipped without any response; otherwise the line is decoded by the
codec oracle and dispatched. -/
def processLine (decode : List Char → ParseResult) (env : Env)
    (exec : Cmd → Except String Resp) (launchRes : Except String Unit)
    (st : DaemonState) (l : List Char) : DaemonState × List Effect :=
  if lineIsBlank l then (st, []) else
    handleMessage env exec launchRes st (decode l)

/-! ## Lifecycle coordinator -/

/-- The `shutdown` routine installed on termination signals
(daemon.ts lines 276-297): if the `shuttingDown` flag is set, return
without effects; otherwise set it, stop the stream server and remove its
port file when running, close the browser, stop the listener, clear the
session artifacts and exit 0. -/
def shutdown (st : DaemonState) : DaemonState × List Effect :=
  if st.shuttingDown then (st, [])
  else
    match st.streamServer with
    | some _ =>
      ({ st with shuttingDown := true, streamServer := none },
       [Effect.streamStop, Effect.removeStreamFile, Effect.browserClose,
        Effect.serverClose, Effect.cleanupSocket, Effect.exitProc 0])
    | none =>
      ({ st with shuttingDown := true },
       [Effect.browserClose, Effect.serverClose, Effect.cleanupSocket,
        Effect.exitProc 0])

/-- Asynchronous shutdown triggers other than the close command. -/
inductive Trigger where
  | signalTerm
  | uncaughtException (msg : String)
  | unhandledRejection (msg : String)
  | serverError (msg : String)
deriving DecidableEq

/-- The handlers installed by `startDaemon` (daemon.ts lines 269-314):
SIGINT/SIGTERM/SIGHUP run `shutdown`; a listener error, an uncaught
exception or an unhandled rejection each log, clear the session artifacts
and exit 1, with no flag check and no browser or stream teardown. -/
def handleTrigger (st : DaemonState) : Trigger → DaemonState × List Effect
  | Trigger.signalTerm => shutdown st
  | Trigger.uncaughtException _ =>
    (st, [Effect.logError, Effect.cleanupSocket, Effect.exitProc 1])
  | Trigger.unhandledRejection _ =>
    (st, [Effect.logError, Effect.cleanupSocket, Effect.exitProc 1])
  | Trigger.serverError _ =>
    (st, [Effect.logError, Effect.cleanupSocket, Effect.exitProc 1])

/-- The startup sequence of `startDaemon` (daemon.ts lines 143-267), as the
trace of its effects: clear stale artifacts; when the resolved stream port
is positive, start the stream server and write its port file; create the
(not yet bound) primary server; write the PID file; on Windows also write
the port file; finally bind the listener to the resolved endpoint and
begin accepting connections (`server.listen`). -/
def startupTrace (streamPort : Nat) (isWindows : Bool) : List Effect :=
  [Effect.cleanupSocket]
    ++ (if streamPort > 0 then
          [Effect.streamStart streamPort, Effect.writeStreamFile streamPort]
        else [])
    ++ [Effect.createServer, Effect.writePidFile]
    ++ (if isWindows then [Effect.writePortFile] else [])
    ++ [Effect.listen]

/-! ## Lock/liveness tracker (daemon.ts, isDaemonRunning / cleanupSocket) -/

/-- The on-disk artifacts of one session.  `pidFile` is `none` when the
marker file is absent, `some none` when it is present but its content does
not parse to a process id, and `some (some pid)` otherwise. -/
structure Artifacts where
  pidFile : Option (Option Nat)
  socketFile : Bool
  portFile : Bool
  streamFile : Bool
deriving DecidableEq

/-- `cleanupSocket` (daemon.ts lines 113-129): delete the PID file and the
stream port file, plus the port file on Windows or the socket file
elsewhere; missing files are ignored. -/
def cleanupSocket (isWindows : Bool) (a : Artifacts) : Artifacts :=
  { pidFile := none
    streamFile := false
    portFile := if isWindows then false else a.portFile
    socketFile := if isWindows then a.socketFile else false }

/-- `isDaemonRunning` (daemon.ts lines 80-94): false when the PID file is
absent; otherwise probe the recorded process with `process.kill(pid, 0)`
(the oracle `probe`; an unparseable pid makes the probe throw as well) and
return true leaving the artifacts alone, or catch the probe failure, clean
up the stale files and return false. -/
def isDaemonRunning (isWindows : Bool) (probe : Nat → Bool)
    (a : Artifacts) : Bool × Artifacts :=
  match a.pidFile with
  | none => (false, a)
  | some none => (false, cleanupSocket isWindows a)
  | some (some pid) =>
    if probe pid then (true, a) else (false, cleanupSocket isWindows a)

/-! ## Concrete sample collaborators used by witnesses and counterexamples -/

/-- An environment with every variable unset. -/
def sampleEnv : Env := ⟨none, none, none, none, none, none, none⟩

/-- A driver oracle that answers every command successfully, echoing its
correlation id. -/
def sampleExec : Cmd → Except String Resp := fun c => Except.ok ⟨c.id, true, ""⟩

/-- A driver oracle that throws on every command. -/
def failingExec : Cmd → Except String Resp := fun _ => Except.error "boom"

/-- A codec oracle that fails to decode every line. -/
def sampleDecode : List Char → ParseResult := fun _ => ParseResult.fail none "bad"

/-- A fresh daemon state: not shutting down, browser not launched, codegen
inactive, no stream server. -/
def sampleState : DaemonState := ⟨false, false, false, none⟩

/-- Artifacts of a session whose PID marker is gone but whose socket file
is still on disk. -/
def staleArtifacts : Artifacts := ⟨none, true, false, false⟩

/-- Artifacts of a session with a PID marker recording process 42, a
socket file and a stream port file. -/
def liveArtifacts : Artifacts := ⟨some (some 42), true, false, true⟩

/-! ## Claims -/

/-- C7: for every session name, the TCP fallback port equals
`49152 + (abs h) % 16383` where `h` folds the character codes through
`h = wrap32 (h * 31 + c)` (32-bit signed overflow wrap), and the result
always lies in the dynamic/private range `[49152, 65535)`.  Purity and
determinism hold because `getPortForSession` is a Lean function of the
code list alone. -/
theorem portHash_spec (codes : List Nat) :
    getPortForSession codes =
      49152 +
        (codes.foldl (fun h c => wrap32 (h * 31 + c)) 0).natAbs % 16383 ∧
    49152 ≤ getPortForSession codes ∧ getPortForSession codes < 65535 := by
  refine ⟨?_, Nat.le_add_right _ _, ?_⟩
  · unfold getPortForSession
    rw [sessionHash_eq_spec]
  · unfold getPortForSession
    have h : (sessionHash codes).natAbs % 16383 < 16383 :=
      Nat.mod_lt _ (by norm_num)
    omega

/-- C8 counterexample: the byte stream C3 A9 0A (`e` with acute accent,
then a newline) framed in one chunk yields the accented character as the
message, but split as C3 / A9 0A — the same byte stream, cut inside the
two-byte UTF-8 sequence — each fragment decodes to a replacement
character (`data.toString()` keeps no decoder state between chunks), so
the framed message differs: the program is not chunk-boundary independent
at byte granularity. -/
theorem framer_chunkIndependence_cex :
    List.flatten [[195], [169, 10]] = List.flatten [[195, 169, 10]] ∧
    feedBytesChunks [[195], [169, 10]] ≠ feedBytesChunks [[195, 169, 10]] ∧
    feedBytesChunks [[195, 169, 10]] =
      ([[Char.ofNat 0xE9]], []) ∧
    feedBytesChunks [[195], [169, 10]] = ([[uRepl, uRepl]], []) := by
  refine ⟨rfl, ?_, ?_, ?_⟩ <;> decide

/-- C8 amended: feeding a byte stream to the handler chunk by chunk
produces the same messages and the same retained remainder as feeding the
whole stream in one chunk, provided no chunk boundary falls inside a
multi-byte UTF-8 sequence (each chunk leaves the decoder in the ground
state); at the decoded-text level the framer is chunk-boundary
independent for every splitting; and a line that is empty after trimming
whitespace is skipped by the dispatcher without producing any
response. -/
theorem framer_chunkIndependence_amended :
    (∀ chunks : List (List Nat), (∀ c ∈ chunks, utf8Complete c) →
        feedBytesChunks chunks = feedBytes [] chunks.flatten) ∧
    (∀ chunks : List (List Char),
        feedChunks chunks = extractLines chunks.flatten) ∧
    (∀ (decode : List Char → ParseResult) (env : Env)
        (exec : Cmd → Except String Resp) (launchRes : Except String Unit)
        (st : DaemonState) (l : List Char),
        lineIsBlank l = true →
        processLine decode env exec launchRes st l = (st, [])) := by
  have hchar : ∀ chunks : List (List Char),
      feedChunks chunks = extractLines chunks.flatten := by
    intro chunks
    unfold feedChunks
    rw [feedChunks_go chunks [] [] (by simp)]
    simp
  refine ⟨?_, hchar, ?_⟩
  · intro chunks hc
    have hmap : feedBytesChunks chunks =
        feedChunks (chunks.map utf8Decode) := by
      unfold feedBytesChunks feedChunks feedBytes
      rw [List.foldl_map]
    rw [hmap, hchar (chunks.map utf8Decode)]
    have hflat := utf8Decode_flatten chunks hc
    unfold feedBytes feed
    rw [← hflat.1]
    simp
  · intro decode env exec launchRes st l hb
    simp [processLine, hb]

/-- Witness for C8 amended: the same bytes split between the two
characters — a boundary the decoder tolerates — frame identically to the
unsplit stream. -/
theorem framer_chunkIndependence_w :
    feedBytesChunks [[195, 169], [10]] = feedBytes [] [195, 169, 10] :=
  framer_chunkIndependence_amended.1 [[195, 169], [10]] (by decide)

/-- C6: a framed message that fails to decode is answered with exactly one
error response tagged with the salvaged correlation id (or the sentinel
`unknown` when the codec salvaged none), the daemon state is unchanged, no
teardown or exit effect is emitted, and the subsequent messages of the
connection are processed exactly as they would have been without the
malformed message. -/
theorem decodeFailure_response (env : Env) (exec : Cmd → Except String Resp)
    (launchRes : Except String Unit) (st : DaemonState) (id : Option String)
    (err : String) (ps : List ParseResult) :
    handleMessage env exec launchRes st (ParseResult.fail id err) =
      (st, [Effect.write (errorResponse (id.getD "unknown") err)]) ∧
    runMsgs env exec launchRes st (ParseResult.fail id err :: ps) =
      ((runMsgs env exec launchRes st ps).1,
       Effect.write (errorResponse (id.getD "unknown") err) ::
         (runMsgs env exec launchRes st ps).2) := by
  constructor
  · rfl
  · simp [runMsgs, handleMessage]

/-- C4 counterexample: with the PID marker file absent but a stale socket
file still on disk, `isDaemonRunning` returns a negative result yet leaves
the artifacts untouched (the socket file survives), contradicting the
claim that every negative result clears the session's endpoint
artifacts. -/
theorem isAlive_cex :
    isDaemonRunning false (fun _ => false) staleArtifacts =
      (false, staleArtifacts) ∧
    staleArtifacts.socketFile = true := by
  constructor <;> rfl

/-- C4 amended: `isDaemonRunning` returns false without touching any
artifact when the marker file is absent; returns true without mutating any
artifact when the recorded process is running; and returns false after
clearing the session artifacts (pid marker, stream file, and socket file
or, on Windows, port file) when the marker is present but the probe fails
for any reason, including an unparseable marker. -/
theorem isAlive_amended (isWindows : Bool) (probe : Nat → Bool)
    (a : Artifacts) :
    (a.pidFile = none → isDaemonRunning isWindows probe a = (false, a)) ∧
    (∀ pid, a.pidFile = some (some pid) → probe pid = true →
       isDaemonRunning isWindows probe a = (true, a)) ∧
    (∀ pid, a.pidFile = some (some pid) → probe pid = false →
       isDaemonRunning isWindows probe a =
         (false, cleanupSocket isWindows a)) ∧
    (a.pidFile = some none →
       isDaemonRunning isWindows probe a =
         (false, cleanupSocket isWindows a)) ∧
    (cleanupSocket isWindows a).pidFile = none ∧
    (cleanupSocket isWindows a).streamFile = false ∧
    (isWindows = true → (cleanupSocket isWindows a).portFile = false) ∧
    (isWindows = false → (cleanupSocket isWindows a).socketFile = false) := by
  refine ⟨?_, ?_, ?_, ?_, rfl, rfl, ?_, ?_⟩
  · intro h; simp [isDaemonRunning, h]
  · intro pid h hp; simp [isDaemonRunning, h, hp]
  · intro pid h hp; simp [isDaemonRunning, h, hp]
  · intro h; simp [isDaemonRunning, h]
  · intro h; simp [cleanupSocket, h]
  · intro h; simp [cleanupSocket, h]

/-- Witness for C4 at a live session: process 42 is probed alive, the
artifacts are untouched. -/
theorem isAlive_w :
    isDaemonRunning false (fun _ => true) liveArtifacts =
      (true, liveArtifacts) :=
  (isAlive_amended false (fun _ => true) liveArtifacts).2.1 42 rfl rfl

/-- C3 counterexample: with stream port 9223 on a POSIX platform, the
startup trace writes the PID lock marker strictly before `server.listen`
binds the endpoint; the claimed order — the primary listener bound to the
resolved endpoint before the lock marker is written — does not hold, since
binding and accepting both happen in the final listen step. -/
theorem startupOrder_cex :
    startupTrace 9223 false =
      [Effect.cleanupSocket, Effect.streamStart 9223,
       Effect.writeStreamFile 9223, Effect.createServer,
       Effect.writePidFile, Effect.listen] ∧
    (startupTrace 9223 false).indexOf Effect.writePidFile <
      (startupTrace 9223 false).indexOf Effect.listen := by
  constructor
  · rfl
  · decide

/-- C3 amended: startup clears stale artifacts first, then (when a stream
port is configured) starts the preview server and publishes its discovery
artifact, then creates the primary server, then writes the lock marker,
and finally binds the listener to the resolved endpoint and begins
accepting connections; when no stream port is configured the preview
server is never started. -/
theorem startupOrder_amended (sp : Nat) (w : Bool) (p : Nat) :
    (0 < sp →
      List.Sublist
        [Effect.cleanupSocket, Effect.streamStart sp,
         Effect.writeStreamFile sp, Effect.createServer,
         Effect.writePidFile, Effect.listen]
        (startupTrace sp w) ∧
      (startupTrace sp w).head? = some Effect.cleanupSocket ∧
      (startupTrace sp w).getLast? = some Effect.listen) ∧
    Effect.streamStart p ∉ startupTrace 0 w ∧
    Effect.writeStreamFile p ∉ startupTrace 0 w := by
  refine ⟨?_, ?_, ?_⟩
  · intro hsp
    cases w <;> simp [startupTrace, hsp, List.getLast?]
  · cases w <;> simp [startupTrace]
  · cases w <;> simp [startupTrace]

/-- Witness for C3 amended at stream port 9223 on POSIX. -/
theorem startupOrder_w :
    (startupTrace 9223 false).head? = some Effect.cleanupSocket :=
  ((startupOrder_amended 9223 false 7).1 (by decide)).2.1

/-- The trace of executing and answering a list of close commands once the
`shuttingDown` flag is already set: each one is executed against the
driver and answered, with no further teardown effects. -/
def closeEcho (resp : String → Resp) : List String → List Effect
  | [] => []
  | i :: rest =>
    Effect.execute ⟨i, "close"⟩ :: Effect.write (resp i) ::
      closeEcho resp rest

theorem runMsgs_close_shutdown (env : Env) (exec : Cmd → Except String Resp)
    (launchRes : Except String Unit) (resp : String → Resp)
    (launched cg : Bool) (ss : Option Nat)
    (hexec : ∀ i, exec ⟨i, "close"⟩ = Except.ok (resp i)) :
    ∀ ids : List String,
      runMsgs env exec launchRes ⟨true, launched, cg, ss⟩
          (ids.map (fun i => ParseResult.ok ⟨i, "close"⟩)) =
        (⟨true, launched, cg, ss⟩, closeEcho resp ids) := by
  intro ids
  induction ids with
  | nil => rfl
  | cons i rest ih =>
    simp [runMsgs, handleMessage, execPhase, hexec i, closeEcho, ih]

/-- C1: for every sequence of close commands reaching the daemon (in the
single global processing order, whatever connections they arrive on), the
first close is executed against the driver and answered before any
teardown effect, the teardown body (stop listener, clear session
artifacts, exit 0) appears exactly once right after that first response,
and every subsequent close command is still executed and answered with no
further teardown, because the `shuttingDown` flag is already set. -/
theorem closeCommand_idempotent (env : Env) (exec : Cmd → Except String Resp)
    (launchRes : Except String Unit) (resp : String → Resp)
    (launched cg : Bool) (ss : Option Nat) (i0 : String) (ids : List String)
    (hexec : ∀ i, exec ⟨i, "close"⟩ = Except.ok (resp i)) :
    runMsgs env exec launchRes ⟨false, launched, cg, ss⟩
        ((i0 :: ids).map (fun i => ParseResult.ok ⟨i, "close"⟩)) =
      (⟨true, launched, cg, ss⟩,
       Effect.execute ⟨i0, "close"⟩ :: Effect.write (resp i0) ::
         Effect.serverClose :: Effect.cleanupSocket :: Effect.exitProc 0 ::
         closeEcho resp ids) := by
  have hrest :=
    runMsgs_close_shutdown env exec launchRes resp launched cg ss hexec ids
  simp [runMsgs, handleMessage, execPhase, hexec i0, hrest]

/-- Witness for C1: two concrete close commands; one teardown, two
responses. -/
theorem closeCommand_idempotent_w :
    runMsgs sampleEnv sampleExec (Except.ok ()) ⟨false, false, false, none⟩
        ([ParseResult.ok ⟨"1", "close"⟩, ParseResult.ok ⟨"2", "close"⟩]) =
      (⟨true, false, false, none⟩,
       [Effect.execute ⟨"1", "close"⟩, Effect.write ⟨"1", true, ""⟩,
        Effect.serverClose, Effect.cleanupSocket, Effect.exitProc 0,
        Effect.execute ⟨"2", "close"⟩, Effect.write ⟨"2", true, ""⟩]) :=
  closeCommand_idempotent sampleEnv sampleExec (Except.ok ())
    (fun i => ⟨i, true, ""⟩) false false none "1" ["2"] (fun _ => rfl)

/-- C2 counterexample: at a concrete state with the browser launched and
the stream server running, the uncaught-exception trigger never closes the
shared browser resource and the explicit close command neither closes the
browser nor stops the stream server, while the signal-driven `shutdown`
routine does close the browser — so the three trigger families do not
funnel into one common teardown body. -/
theorem shutdownFunnel_cex :
    Effect.browserClose ∉
      (handleTrigger ⟨false, true, false, some 9223⟩
        (Trigger.uncaughtException "boom")).2 ∧
    Effect.browserClose ∉
      (handleMessage sampleEnv sampleExec (Except.ok ())
        ⟨false, true, false, some 9223⟩ (ParseResult.ok ⟨"2", "close"⟩)).2 ∧
    Effect.streamStop ∉
      (handleMessage sampleEnv sampleExec (Except.ok ())
        ⟨false, true, false, some 9223⟩ (ParseResult.ok ⟨"2", "close"⟩)).2 ∧
    Effect.browserClose ∈
      (shutdown ⟨false, true, false, some 9223⟩).2 := by
  decide

/-- C2 amended: only the termination signals funnel into the idempotent
`shutdown` routine, whose body — guarded by the `shuttingDown` flag so it
runs at most once — stops the stream server and removes its discovery
artifact when running, then closes the browser, then stops the listener,
then clears the session artifacts, then exits 0; the explicit close
command shares the flag but runs a reduced teardown without the stream or
browser steps, and unrecoverable process errors bypass flag and routine
entirely, clearing the session artifacts and exiting 1. -/
theorem shutdownFunnel_amended (st : DaemonState) :
    handleTrigger st Trigger.signalTerm = shutdown st ∧
    (st.shuttingDown = false → st.streamServer = none →
       shutdown st = ({ st with shuttingDown := true },
         [Effect.browserClose, Effect.serverClose, Effect.cleanupSocket,
          Effect.exitProc 0])) ∧
    (∀ p, st.shuttingDown = false → st.streamServer = some p →
       shutdown st =
         ({ st with shuttingDown := true, streamServer := none },
          [Effect.streamStop, Effect.removeStreamFile, Effect.browserClose,
           Effect.serverClose, Effect.cleanupSocket, Effect.exitProc 0])) ∧
    (st.shuttingDown = true → shutdown st = (st, [])) ∧
    (∀ m, handleTrigger st (Trigger.uncaughtException m) =
       (st, [Effect.logError, Effect.cleanupSocket, Effect.exitProc 1])) ∧
    (∀ m, handleTrigger st (Trigger.unhandledRejection m) =
       (st, [Effect.logError, Effect.cleanupSocket, Effect.exitProc 1])) ∧
    (∀ m, handleTrigger st (Trigger.serverError m) =
       (st, [Effect.logError, Effect.cleanupSocket, Effect.exitProc 1])) := by
  refine ⟨rfl, ?_, ?_, ?_, fun _ => rfl, fun _ => rfl, fun _ => rfl⟩
  · intro h hs; simp [shutdown, h, hs]
  · intro p h hs; simp [shutdown, h, hs]
  · intro h; simp [shutdown, h]

/-- Witness for C2 amended: the signal-driven routine at a concrete state
with the stream server running. -/
theorem shutdownFunnel_w :
    shutdown ⟨false, true, false, some 9223⟩ =
      (⟨true, true, false, none⟩,
       [Effect.streamStop, Effect.removeStreamFile, Effect.browserClose,
        Effect.serverClose, Effect.cleanupSocket, Effect.exitProc 0]) :=
  (shutdownFunnel_amended ⟨false, true, false, some 9223⟩).2.2.1 9223 rfl rfl

/-- C5: a decoded command that is neither `launch` nor `close`, arriving
while the browser is not launched, triggers exactly one browser launch —
before the command is executed — with configuration from the environment:
headless unless the headed toggle equals `1`, the optional executable
path, and the extensions variable split on commas, trimmed and filtered of
empty entries; when the browser is already launched no launch effect is
emitted. -/
theorem autoLaunch_gate (env : Env) (exec : Cmd → Except String Resp)
    (launchRes : Except String Unit) (st : DaemonState) (cmd : Cmd)
    (resp : Resp) (s : String)
    (hl : cmd.action ≠ "launch") (hc : cmd.action ≠ "close")
    (hexec : exec cmd = Except.ok resp) :
    (st.launched = false →
       handleMessage env exec (Except.ok ()) st (ParseResult.ok cmd) =
         ({ st with
              launched := true,
              codegenActive :=
                st.codegenActive || (env.codegen == some "1") },
          Effect.browserLaunch (autoLaunchConfig env) ::
            ((if env.codegen = some "1" ∧ st.codegenActive = false then
                [Effect.startCodegen (autoCodegenOpts env)]
              else []) ++
             [Effect.execute cmd, Effect.write resp]))) ∧
    (st.launched = true →
       handleMessage env exec launchRes st (ParseResult.ok cmd) =
         (st, [Effect.execute cmd, Effect.write resp])) ∧
    ((autoLaunchConfig env).headless = true ↔ env.headed ≠ some "1") ∧
    (autoLaunchConfig env).executablePath = env.executablePath ∧
    (env.extensions = some s → s ≠ "" →
       (autoLaunchConfig env).extensions =
         some (((s.splitOn ",").map String.trim).filter (fun e => e ≠ ""))) ∧
    (env.extensions = none → (autoLaunchConfig env).extensions = none) := by
  refine ⟨?_, ?_, ?_, rfl, ?_, ?_⟩
  · intro h
    by_cases hcg : env.codegen = some "1" ∧ st.codegenActive = false
    · simp [handleMessage, h, hl, hc, gateEffects, execPhase, hexec, hcg,
        hcg.1, hcg.2]
    · rw [Decidable.not_and_iff_or_not] at hcg
      rcases hcg with hcg | hcg
      · simp [handleMessage, h, hl, hc, gateEffects, execPhase, hexec, hcg]
      · rw [Bool.not_eq_false] at hcg
        simp [handleMessage, h, hl, hc, gateEffects, execPhase, hexec, hcg]
  · intro h
    simp [handleMessage, h, execPhase, hexec, hc]
  · simp [autoLaunchConfig, bne_iff_ne]
  · intro he hs
    simp [autoLaunchConfig, envExtensions, he, hs]
  · intro he
    simp [autoLaunchConfig, envExtensions, he]

/-- Witness for C5: a `navigate` command on a fresh state launches the
browser once before executing. -/
theorem autoLaunch_gate_w :
    handleMessage sampleEnv sampleExec (Except.ok ()) sampleState
        (ParseResult.ok ⟨"1", "navigate"⟩) =
      (⟨false, true, false, none⟩,
       [Effect.browserLaunch (autoLaunchConfig sampleEnv),
        Effect.execute ⟨"1", "navigate"⟩,
        Effect.write ⟨"1", true, ""⟩]) := by
  have h := (autoLaunch_gate sampleEnv sampleExec (Except.ok ())
    sampleState ⟨"1", "navigate"⟩ ⟨"1", true, ""⟩ "x"
    (by decide) (by decide) rfl).1 rfl
  simpa [sampleEnv, sampleState] using h

/-- C9: the daemon exits 0 on graceful shutdown (explicit close command or
termination signal) and exits 1 on a listener bind failure, an uncaught
exception or an unhandled rejection, and on each of the three nonzero-exit
paths the session-artifact cleanup runs immediately before the exit. -/
theorem exitCodes_spec (st : DaemonState) (m : String) (env : Env)
    (exec : Cmd → Except String Resp) (launchRes : Except String Unit)
    (cmd : Cmd) (r : Resp) (hsd : st.shuttingDown = false) :
    handleTrigger st (Trigger.serverError m) =
      (st, [Effect.logError, Effect.cleanupSocket, Effect.exitProc 1]) ∧
    handleTrigger st (Trigger.uncaughtException m) =
      (st, [Effect.logError, Effect.cleanupSocket, Effect.exitProc 1]) ∧
    handleTrigger st (Trigger.unhandledRejection m) =
      (st, [Effect.logError, Effect.cleanupSocket, Effect.exitProc 1]) ∧
    (handleTrigger st Trigger.signalTerm).2.getLast? =
      some (Effect.exitProc 0) ∧
    (cmd.action = "close" → exec cmd = Except.ok r →
       (handleMessage env exec launchRes st
           (ParseResult.ok cmd)).2.getLast? =
         some (Effect.exitProc 0)) := by
  refine ⟨rfl, rfl, rfl, ?_, ?_⟩
  · cases h : st.streamServer <;>
      simp [handleTrigger, shutdown, hsd, h, List.getLast?]
  · intro h1 h2
    simp [handleMessage, h1, execPhase, h2, hsd, List.getLast?]

/-- Witness for C9: a concrete close command exits 0 after its response. -/
theorem exitCodes_w :
    (handleMessage sampleEnv sampleExec (Except.ok ()) sampleState
        (ParseResult.ok ⟨"9", "close"⟩)).2.getLast? =
      some (Effect.exitProc 0) :=
  (exitCodes_spec sampleState "x" sampleEnv sampleExec (Except.ok ())
    ⟨"9", "close"⟩ ⟨"9", true, ""⟩ rfl).2.2.2.2 rfl rfl

/-- C10: a successfully decoded message whose processing throws — whether
the driver fails on the command or the auto-launch fails — is answered
with exactly one error response carrying the failure's message and the
fixed correlation id `error` (not the request's own id), the daemon state
is unchanged, and subsequent messages are processed as before. -/
theorem processingError_response (env : Env)
    (exec : Cmd → Except String Resp) (launchRes : Except String Unit)
    (st : DaemonState) (cmd : Cmd) (msg m2 : String)
    (ps : List ParseResult) :
    (exec cmd = Except.error msg → st.launched = true →
       handleMessage env exec launchRes st (ParseResult.ok cmd) =
         (st, [Effect.execute cmd,
               Effect.write (errorResponse "error" msg)])) ∧
    (exec cmd = Except.error msg → st.launched = true →
       runMsgs env exec launchRes st (ParseResult.ok cmd :: ps) =
         ((runMsgs env exec launchRes st ps).1,
          Effect.execute cmd :: Effect.write (errorResponse "error" msg) ::
            (runMsgs env exec launchRes st ps).2)) ∧
    (st.launched = false → cmd.action ≠ "launch" → cmd.action ≠ "close" →
       handleMessage env exec (Except.error m2) st (ParseResult.ok cmd) =
         (st, [Effect.browserLaunch (autoLaunchConfig env),
               Effect.write (errorResponse "error" m2)])) := by
  refine ⟨?_, ?_, ?_⟩
  · intro he hl
    by_cases hc : cmd.action = "close" <;>
      simp [handleMessage, hl, execPhase, he, hc]
  · intro he hl
    by_cases hc : cmd.action = "close" <;>
      simp [runMsgs, handleMessage, hl, execPhase, he, hc]
  · intro h0 h1 h2
    simp [handleMessage, h0, h1, h2]

/-- Witness for C10: a concrete click command whose driver call throws is
answered with the fixed `error` id. -/
theorem processingError_w :
    handleMessage sampleEnv failingExec (Except.ok ())
        ⟨false, true, false, none⟩ (ParseResult.ok ⟨"7", "click"⟩) =
      (⟨false, true, false, none⟩,
       [Effect.execute ⟨"7", "click"⟩,
        Effect.write (errorResponse "error" "boom")]) :=
  (processingError_response sampleEnv failingExec (Except.ok ())
    ⟨false, true, false, none⟩ ⟨"7", "click"⟩ "boom" "x" []).1 rfl rfl

end AgentBrowser
